import Mathlib

/-!
Verification of the MongoDB_Demo repository (`Mongodb_manager.py`,
`connect_mongo.py`) against its natural-language specification.

Python strings are modelled as `List Char` (one entry per code point, which
matches Python `len` and `in` substring semantics).  Stateful class-level
fields are modelled by explicit state passing: the singleton `_client` field
is an `Option Nat`, a live client being an abstract identity `Nat`.  The
external pymongo collaborator (insert_one, insert_many, find, ping, ...) is
passed in as function parameters returning `Except`, an `Except.error`
standing for a raised driver exception.
-/

namespace MongoDemo

/-- Python `str.strip()` whitespace set for the code points that class as
whitespace in CPython (`\t \n \v \f \r`, the file/group/record/unit
separators, space, next-line, NBSP and the Unicode space separators). -/
def pyIsSpace (c : Char) : Bool :=
  let n := c.toNat
  (9 ≤ n && n ≤ 13) || (28 ≤ n && n ≤ 31) || n == 32 || n == 133 || n == 160 ||
  n == 0x1680 || (0x2000 ≤ n && n ≤ 0x200a) || n == 0x2028 || n == 0x2029 ||
  n == 0x202f || n == 0x205f || n == 0x3000

/-- Python `str.strip()`: drop whitespace from both ends. -/
def pyStrip (l : List Char) : List Char :=
  ((l.dropWhile pyIsSpace).reverse.dropWhile pyIsSpace).reverse

/-- `startsWithChars pat s` : does `s` begin with `pat`? -/
def startsWithChars : List Char → List Char → Bool
  | [], _ => true
  | _ :: _, [] => false
  | p :: ps, c :: cs => (p == c) && startsWithChars ps cs

/-- Python substring containment `pat in s` (for non-empty and empty `pat`,
matching Python, where the empty string is contained in everything). -/
def containsTok (pat : List Char) : List Char → Bool
  | [] => pat.isEmpty
  | c :: cs => startsWithChars pat (c :: cs) || containsTok pat cs

/-- The double-quote character (code point 34). -/
def dquote : Char := Char.ofNat 34

/-- The single-quote character (code point 39). -/
def squote : Char := Char.ofNat 39

/-- The `invalid_chars` list of `MongoDBManager._validate_name`, in source
order; each entry is a Python string, the eleventh being the two-character
sequence of an opening and a closing parenthesis checked as one token. -/
def invalid_chars : List (List Char) :=
  [['~'], ['\\'], ['.'], [' '], [dquote], [squote], ['$'], ['#'], ['%'],
   ['+'], ['(', ')'], ['*']]

/-- Errors raised by `_validate_name` on string inputs (the `ValueError`
cases; the `TypeError` branch for non-string inputs is outside the model,
which quantifies over strings only). -/
inductive NameError where
  | emptyOrWhitespace
  | tooLong
  | invalidChar (tok : List Char)
deriving DecidableEq, Repr

/-- `MongoDBManager._validate_name` on a string input: reject when the
stripped name is empty, when the length exceeds 64, or when the name
contains one of the `invalid_chars` tokens as a substring (first match in
source order). -/
def validate_name (name : List Char) : Except NameError Unit :=
  if (pyStrip name).isEmpty then .error .emptyOrWhitespace
  else if 64 < name.length then .error .tooLong
  else match findBadTok name invalid_chars with
    | some t => .error (.invalidChar t)
    | none => .ok ()
where
  /-- The `for char in invalid_chars` loop: first contained token, if any. -/
  findBadTok (name : List Char) : List (List Char) → Option (List Char)
    | [] => none
    | t :: ts => if containsTok t name then some t else findBadTok name ts

/-- `isErr e` : does the call raise? -/
def isErr {ε α : Type} : Except ε α → Bool
  | .error _ => true
  | .ok _ => false

/-- The reserved characters as the spec lists them, minus the parenthesis
pair: `~ \ . (space) " ' $ # % + *`. -/
def specReserved (c : Char) : Bool :=
  c == '~' || c == '\\' || c == '.' || c == ' ' || c == dquote ||
  c == squote || c == '$' || c == '#' || c == '%' || c == '+' || c == '*'

/-- The parenthesis pair, checked by the code as a single substring token. -/
def parenPair : List Char := ['(', ')']

/-- The spec-side rejection predicate, written from the spec text: the name
contains a reserved character (with the parenthesis rule being a substring
check on the two-character sequence), is whitespace-only, is empty, or is
longer than 64 characters. -/
def specRejectsName (name : List Char) : Bool :=
  name.any specReserved || containsTok parenPair name ||
  name.all pyIsSpace || name.isEmpty || decide (64 < name.length)

/-- Dropping a satisfied-prefix does not change "all elements satisfy". -/
lemma dropWhile_all_iff (p : Char → Bool) (l : List Char) :
    (∀ x ∈ l.dropWhile p, p x = true) ↔ (∀ x ∈ l, p x = true) := by
  induction l with
  | nil => simp
  | cons a as ih =>
    by_cases h : p a <;> simp [List.dropWhile_cons, h, ih]

/-- `strip` yields the empty string exactly when every character is
whitespace (in particular on the empty string). -/
lemma pyStrip_isEmpty (l : List Char) :
    (pyStrip l).isEmpty = l.all pyIsSpace := by
  have h : (pyStrip l).isEmpty = true ↔ l.all pyIsSpace = true := by
    simp only [pyStrip, List.isEmpty_iff, List.reverse_eq_nil_iff,
      List.dropWhile_eq_nil_iff, List.mem_reverse, List.all_eq_true]
    exact dropWhile_all_iff pyIsSpace l
  cases h1 : (pyStrip l).isEmpty <;> cases h2 : l.all pyIsSpace <;> simp_all

/-- Containment of a one-character token is membership of the character. -/
lemma containsTok_singleton (c : Char) (l : List Char) :
    containsTok [c] l = true ↔ c ∈ l := by
  induction l with
  | nil => simp [containsTok]
  | cons a as ih =>
    simp only [containsTok, startsWithChars, Bool.and_true, Bool.or_eq_true,
      beq_iff_eq, List.mem_cons, ih]

/-- The validation loop finds no token exactly when no token is contained. -/
lemma findBadTok_none_iff (name : List Char) (toks : List (List Char)) :
    validate_name.findBadTok name toks = none ↔
      ∀ t ∈ toks, containsTok t name = false := by
  induction toks with
  | nil => simp [validate_name.findBadTok]
  | cons t ts ih =>
    by_cases h : containsTok t name <;>
      simp [validate_name.findBadTok, h, ih]

/-- A token found by the validation loop is a contained token of the list. -/
lemma findBadTok_some (name : List Char) (toks : List (List Char))
    (t : List Char) (h : validate_name.findBadTok name toks = some t) :
    t ∈ toks ∧ containsTok t name = true := by
  induction toks with
  | nil => simp [validate_name.findBadTok] at h
  | cons u us ih =>
    by_cases hu : containsTok u name
    · simp [validate_name.findBadTok, hu] at h
      subst h; exact ⟨List.mem_cons_self u us, hu⟩
    · simp [validate_name.findBadTok, hu] at h
      obtain ⟨hm, hc⟩ := ih h
      exact ⟨List.mem_cons_of_mem u hm, hc⟩

/-- A character satisfying `specReserved` occurring in the name makes the
validation loop find a token. -/
lemma specReserved_mem_contains (c : Char) (name : List Char)
    (hc : specReserved c = true) (hm : c ∈ name) :
    ∃ t ∈ invalid_chars, containsTok t name = true := by
  have hct : containsTok [c] name = true := (containsTok_singleton c name).2 hm
  simp only [specReserved, Bool.or_eq_true, beq_iff_eq, or_assoc] at hc
  rcases hc with h | h | h | h | h | h | h | h | h | h | h <;>
    subst h <;> exact ⟨_, by simp [invalid_chars], hct⟩

/-- Shared characterization: the validator raises exactly on the
spec-side rejection predicate. -/
lemma isErr_validate_name_eq (name : List Char) :
    isErr (validate_name name) = specRejectsName name := by
  by_cases hws : (pyStrip name).isEmpty = true
  · have hall : name.all pyIsSpace = true := by
      rw [← pyStrip_isEmpty]; exact hws
    simp [validate_name, hws, isErr, specRejectsName, hall]
  · have hall : name.all pyIsSpace = false := by
      rw [← pyStrip_isEmpty]; simpa using hws
    have hne : name.isEmpty = false := by
      cases name with
      | nil => simp [pyStrip] at hws
      | cons a as => simp
    by_cases hlen : 64 < name.length
    · simp [validate_name, hws, hlen, isErr, specRejectsName]
    · cases hbad : validate_name.findBadTok name invalid_chars with
      | some t =>
        have hlhs : isErr (validate_name name) = true := by
          simp [validate_name, hws, hlen, hbad, isErr]
        obtain ⟨hmem, hcont⟩ := findBadTok_some name invalid_chars t hbad
        have hrhs : specRejectsName name = true := by
          simp only [invalid_chars, List.mem_cons, List.not_mem_nil,
            or_false] at hmem
          rcases hmem with h | h | h | h | h | h | h | h | h | h | h | h <;>
            subst h <;>
            simp only [specRejectsName, Bool.or_eq_true] <;>
            first
            | exact Or.inl (Or.inl (Or.inl (Or.inl (List.any_eq_true.2
                ⟨_, (containsTok_singleton _ _).1 hcont, by decide⟩))))
            | exact Or.inl (Or.inl (Or.inl (Or.inr hcont)))
        rw [hlhs, hrhs]
      | none =>
        have hlhs : isErr (validate_name name) = false := by
          simp [validate_name, hws, hlen, hbad, isErr]
        have hnone := (findBadTok_none_iff name invalid_chars).1 hbad
        have hany : name.any specReserved = false := by
          rw [List.any_eq_false]
          intro c hc
          by_contra hres
          obtain ⟨t, htm, htc⟩ := specReserved_mem_contains c name hres hc
          rw [hnone t htm] at htc
          exact Bool.false_ne_true htc
        have hparen : containsTok parenPair name = false :=
          hnone parenPair (by simp [invalid_chars, parenPair])
        simp [specRejectsName, hlhs, hany, hparen, hall, hne, hlen]

/-! ## Client lifecycle (`initialize_client`, `close_client`) -/

/-- The scheme `mongodb://` accepted by `_validate_connection_string`. -/
def schemeMongo : List Char :=
  ['m', 'o', 'n', 'g', 'o', 'd', 'b', ':', '/', '/']

/-- The scheme `mongodb+srv://` accepted by `_validate_connection_string`. -/
def schemeMongoSrv : List Char :=
  ['m', 'o', 'n', 'g', 'o', 'd', 'b', '+', 's', 'r', 'v', ':', '/', '/']

/-- Errors raised out of `initialize_client`: the `TypeError` when the
resolved connection string is not a string (here: absent), the two
`ValueError`s of `_validate_connection_string`, and the pymongo
`ConnectionFailure`/`PyMongoError` re-raised when the ping fails. -/
inductive InitError where
  | typeError
  | emptyConn
  | badScheme
  | connFailure
deriving DecidableEq, Repr

/-- `MongoDBManager._validate_connection_string`, on an optional string
(`none` models the non-string value `None` reaching the `isinstance`
check after resolution). -/
def validate_connection_string (cs : Option (List Char)) :
    Except InitError Unit :=
  match cs with
  | none => .error .typeError
  | some s =>
    if (pyStrip s).isEmpty then .error .emptyConn
    else if !(startsWithChars schemeMongo s || startsWithChars schemeMongoSrv s)
    then .error .badScheme
    else .ok ()

/-- Resolution `connection_string or os.getenv(...)` : a `None` or
empty-string (falsy) argument falls back to the environment value. -/
def resolveConn (getenv : Option (List Char)) (cs : Option (List Char)) :
    Option (List Char) :=
  match cs with
  | some s => if s.isEmpty then getenv else some s
  | none => getenv

/-- `MongoDBManager.initialize_client`.  The class-level `_client` field is
the explicit state (`Option Nat`, a live client being an abstract identity);
`getenv` is the environment-sourced default after `load_dotenv`;
`newClient` is the identity the `MongoClient` constructor would produce;
`ping` is the collaborator's liveness check on a client.  Returns the new
state and the call's outcome. -/
def initialize_client (getenv : Option (List Char)) (ping : Nat → Bool)
    (newClient : Nat) (st : Option Nat) (cs : Option (List Char)) :
    Option Nat × Except InitError Unit :=
  match st with
  | some c => (some c, .ok ())
  | none =>
    match validate_connection_string (resolveConn getenv cs) with
    | .error e => (none, .error e)
    | .ok _ =>
      if ping newClient then (some newClient, .ok ())
      else (none, .error .connFailure)

/-- `MongoDBManager.close_client`: new state plus the list of client
identities whose underlying session was released by the call. -/
def close_client (st : Option Nat) : Option Nat × List Nat :=
  match st with
  | some c => (none, [c])
  | none => (none, [])

/-! ## Collection accessor construction (`MongoDBManager.__init__`) -/

/-- Errors raised by `__init__`: the `RuntimeError` when the singleton
client is not initialized (checked first), else a name-validation error on
the database or the collection name. -/
inductive MkError where
  | illegalState
  | badDbName (e : NameError)
  | badCollName (e : NameError)
deriving DecidableEq, Repr

/-- A constructed manager instance: the validated names plus the borrowed
client identity. -/
structure Manager where
  db_name : List Char
  collection_name : List Char
  client : Nat
deriving DecidableEq, Repr

/-- `MongoDBManager.__init__`: requires a live client, then validates both
names, then binds. -/
def mkManager (st : Option Nat) (db_name collection_name : List Char) :
    Except MkError Manager :=
  match st with
  | none => .error .illegalState
  | some c =>
    match validate_name db_name with
    | .error e => .error (.badDbName e)
    | .ok _ =>
      match validate_name collection_name with
      | .error e => .error (.badCollName e)
      | .ok _ => .ok ⟨db_name, collection_name, c⟩

/-! ## CRUD operations -/

/-- The result object of the collaborator's `insert_one`. -/
structure InsertOneRes where
  acknowledged : Bool
  inserted_id : Nat
deriving DecidableEq, Repr

/-- The result object of the collaborator's `insert_many`. -/
structure InsertManyRes where
  acknowledged : Bool
  inserted_ids : List Nat
deriving DecidableEq, Repr

/-- The runtime shape of `insert_document`'s argument: a dict (single
document of type `δ`), a list of dicts, or any other value (of type `ω`). -/
inductive InsertData (δ ω : Type) where
  | dict (d : δ)
  | list (l : List δ)
  | other (v : ω)

/-- `MongoDBManager.insert_document`.  The collaborator calls `insertOne`
and `insertMany` return `Except ε _`, an `error` standing for a raised
driver exception, which the method's `except` clause converts to
`(False, None)`.  The returned pair is `(acknowledged, inserted id(s))`,
the second component `none` on any failure, an id for a single document
and the list of ids for a batch. -/
def insert_document {δ ω ε : Type}
    (insertOne : δ → Except ε InsertOneRes)
    (insertMany : List δ → Except ε InsertManyRes)
    (data : InsertData δ ω) : Bool × Option (Nat ⊕ List Nat) :=
  match data with
  | .dict d =>
    match insertOne d with
    | .ok r => (r.acknowledged, some (.inl r.inserted_id))
    | .error _ => (false, none)
  | .list l =>
    match insertMany l with
    | .ok r => (r.acknowledged, some (.inr r.inserted_ids))
    | .error _ => (false, none)
  | .other _ => (false, none)

/-- `MongoDBManager.find_one`: a pass-through of the collaborator's
`find_one`, catching nothing. -/
def find_one {φ δ ε : Type} (coll_find_one : φ → Except ε δ)
    (filter_dict : φ) : Except ε δ :=
  coll_find_one filter_dict

/-- The Python default `filter_dict or {}`: a missing (`None`) or falsy
(empty-dict) filter becomes the match-everything empty dict; dicts are
modelled as association lists. -/
def orEmptyDict {α : Type} (filter_dict : Option (List α)) : List α :=
  match filter_dict with
  | none => []
  | some d => if d.isEmpty then [] else d

/-- `MongoDBManager.find_many`: forwards `filter_dict or {}` to the
collaborator's cursor-returning `find`, catching nothing. -/
def find_many {α δ ε : Type} (coll_find : List α → Except ε δ)
    (filter_dict : Option (List α)) : Except ε δ :=
  coll_find (orEmptyDict filter_dict)

/-- `MongoDBManager.update_one`: a pass-through of the collaborator's
`update_one`, catching nothing. -/
def update_one {φ υ δ ε : Type} (coll_update_one : φ → υ → Except ε δ)
    (filter_dict : φ) (update_dict : υ) : Except ε δ :=
  coll_update_one filter_dict update_dict

/-- `MongoDBManager.delete_one`: a pass-through of the collaborator's
`delete_one`, catching nothing. -/
def delete_one {φ δ ε : Type} (coll_delete_one : φ → Except ε δ)
    (filter_dict : φ) : Except ε δ :=
  coll_delete_one filter_dict

/-! ## Claim theorems -/

/-- C1: name validation fails with `InvalidArgument` exactly for the inputs
the spec lists — it raises iff the name contains a reserved character (the
parenthesis pair counting as the spec's substring token), is
whitespace-only, is empty, or is longer than 64 characters; equivalently it
succeeds on exactly the remaining strings of length 1 to 64. -/
theorem claim_C1_validate_name_exact (name : List Char) :
    isErr (validate_name name) = specRejectsName name :=
  isErr_validate_name_eq name

/-- C2: the parenthesis rule is a substring check on the two-character
sequence of an opening and closing parenthesis: every name containing that
sequence is rejected, and a name containing a parenthesis but not the
sequence is rejected exactly for the non-parenthesis reasons (another
reserved character, whitespace-only, or length over 64). -/
theorem claim_C2_paren_substring_rule (name : List Char) :
    (containsTok parenPair name = true → isErr (validate_name name) = true) ∧
    ((('(' ∈ name ∨ ')' ∈ name) ∧ containsTok parenPair name = false) →
      isErr (validate_name name) =
        (name.any specReserved || name.all pyIsSpace ||
         decide (64 < name.length))) := by
  constructor
  · intro h
    rw [isErr_validate_name_eq]
    simp [specRejectsName, h]
  · rintro ⟨hmem, hpar⟩
    have hne : name.isEmpty = false := by
      cases name with
      | nil => rcases hmem with h | h <;> simp at h
      | cons a as => simp
    rw [isErr_validate_name_eq]
    simp [specRejectsName, hpar, hne]

/-- A name made of a letter and the parenthesis pair, rejected. -/
def exParenName : List Char := ['a', '(', ')']

/-- A name with a lone opening parenthesis, accepted. -/
def exOpenName : List Char := ['(', 'a']

/-- Witness for C2 at concrete names: the pair sequence is rejected, a lone
parenthesis is accepted. -/
theorem claim_C2_witness :
    isErr (validate_name exParenName) = true ∧
    isErr (validate_name exOpenName) = false :=
  ⟨(claim_C2_paren_substring_rule exParenName).1 (by decide),
   by
     have h := (claim_C2_paren_substring_rule exOpenName).2
       ⟨Or.inl (by decide), by decide⟩
     rw [h]; decide⟩

/-- C3: `insert_document` never propagates an exception — a non-dict,
non-list input returns `(False, None)`, and a driver error raised by
`insert_one` or `insert_many` is caught and converted to `(False, None)`
(the embedding is a total function, so no other outcome escapes). -/
theorem claim_C3_insert_soft_fail {δ ω ε : Type}
    (insertOne : δ → Except ε InsertOneRes)
    (insertMany : List δ → Except ε InsertManyRes) :
    (∀ v : ω, insert_document insertOne insertMany (InsertData.other v) =
      (false, none)) ∧
    (∀ (d : δ) (e : ε), insertOne d = .error e →
      insert_document insertOne insertMany
        (InsertData.dict d : InsertData δ ω) = (false, none)) ∧
    (∀ (l : List δ) (e : ε), insertMany l = .error e →
      insert_document insertOne insertMany
        (InsertData.list l : InsertData δ ω) = (false, none)) := by
  refine ⟨fun v => rfl, fun d e h => ?_, fun l e h => ?_⟩ <;>
    simp [insert_document, h]

/-- An `insert_one` collaborator that always raises. -/
def failOne : Nat → Except Nat InsertOneRes := fun _ => .error 0

/-- An `insert_many` collaborator that always raises. -/
def failMany : List Nat → Except Nat InsertManyRes := fun _ => .error 0

/-- Witness for C3 at concrete inputs and failing collaborators. -/
theorem claim_C3_witness :
    insert_document failOne failMany (InsertData.other 7) = (false, none) ∧
    insert_document failOne failMany
      (InsertData.dict 1 : InsertData Nat Nat) = (false, none) ∧
    insert_document failOne failMany
      (InsertData.list [1, 2] : InsertData Nat Nat) = (false, none) :=
  ⟨(claim_C3_insert_soft_fail failOne failMany).1 7,
   (claim_C3_insert_soft_fail failOne failMany).2.1 1 0 rfl,
   (claim_C3_insert_soft_fail failOne failMany).2.2 [1, 2] 0 rfl⟩

/-- C4: on success the result shape follows the input shape — a dict yields
`(acknowledged, inserted_id)`, a list yields `(acknowledged, inserted_ids)`,
and when the collaborator acknowledges the first component is `true`. -/
theorem claim_C4_insert_success_shape {δ ω ε : Type}
    (insertOne : δ → Except ε InsertOneRes)
    (insertMany : List δ → Except ε InsertManyRes) :
    (∀ (d : δ) (r : InsertOneRes), insertOne d = .ok r →
      insert_document insertOne insertMany
        (InsertData.dict d : InsertData δ ω) =
        (r.acknowledged, some (Sum.inl r.inserted_id))) ∧
    (∀ (l : List δ) (r : InsertManyRes), insertMany l = .ok r →
      insert_document insertOne insertMany
        (InsertData.list l : InsertData δ ω) =
        (r.acknowledged, some (Sum.inr r.inserted_ids))) ∧
    (∀ (d : δ) (r : InsertOneRes), insertOne d = .ok r →
      r.acknowledged = true →
      (insert_document insertOne insertMany
        (InsertData.dict d : InsertData δ ω)).fst = true) ∧
    (∀ (l : List δ) (r : InsertManyRes), insertMany l = .ok r →
      r.acknowledged = true →
      (insert_document insertOne insertMany
        (InsertData.list l : InsertData δ ω)).fst = true) := by
  refine ⟨fun d r h => ?_, fun l r h => ?_,
          fun d r h ha => ?_, fun l r h ha => ?_⟩
  · simp [insert_document, h]
  · simp [insert_document, h]
  · simp [insert_document, h, ha]
  · simp [insert_document, h, ha]

/-- An acknowledging `insert_one` collaborator. -/
def okOne : Nat → Except Nat InsertOneRes := fun _ => .ok ⟨true, 42⟩

/-- An acknowledging `insert_many` collaborator. -/
def okMany : List Nat → Except Nat InsertManyRes := fun _ => .ok ⟨true, [5, 6]⟩

/-- Witness for C4 at concrete inputs and acknowledging collaborators. -/
theorem claim_C4_witness :
    insert_document okOne okMany (InsertData.dict 1 : InsertData Nat Nat) =
      (true, some (Sum.inl 42)) ∧
    insert_document okOne okMany
      (InsertData.list [1, 2] : InsertData Nat Nat) =
      (true, some (Sum.inr [5, 6])) :=
  ⟨(claim_C4_insert_success_shape okOne okMany).1 1 ⟨true, 42⟩ rfl,
   (claim_C4_insert_success_shape okOne okMany).2.1 [1, 2] ⟨true, [5, 6]⟩ rfl⟩

/-- C5: when the liveness check fails during initialization, the error is
raised to the caller as the connection failure and the handle state is
reset to `none` — the clean no-handle state the call started from. -/
theorem claim_C5_ping_failure_resets (getenv : Option (List Char))
    (ping : Nat → Bool) (newClient : Nat) (cs : Option (List Char))
    (hval : validate_connection_string (resolveConn getenv cs) = .ok ())
    (hping : ping newClient = false) :
    initialize_client getenv ping newClient none cs =
      (none, .error .connFailure) := by
  simp [initialize_client, hval, hping]

/-- A liveness check that always fails. -/
def deadPing : Nat → Bool := fun _ => false

/-- Witness for C5 at a concrete valid connection string. -/
theorem claim_C5_witness :
    initialize_client (some schemeMongo) deadPing 3 none none =
      (none, Except.error InitError.connFailure) :=
  claim_C5_ping_failure_resets (some schemeMongo) deadPing 3 none rfl rfl

/-- C6: constructing a manager while no client handle is live fails with
the illegal-state error, for every pair of names. -/
theorem claim_C6_illegal_state (db_name collection_name : List Char) :
    mkManager none db_name collection_name = .error .illegalState :=
  rfl

/-- C7: `initialize_client` is idempotent — with a live handle it is a
no-op for any argument, leaving the handle identity unchanged and raising
no error. -/
theorem claim_C7_initialize_idempotent (getenv : Option (List Char))
    (ping : Nat → Bool) (newClient : Nat) (c : Nat)
    (cs : Option (List Char)) :
    initialize_client getenv ping newClient (some c) cs = (some c, .ok ()) :=
  rfl

/-- C8: `close_client` is idempotent — it never raises (it is total), the
handle is cleared after every call, and a second call is a no-op releasing
no session. -/
theorem claim_C8_close_idempotent (st : Option Nat) :
    (close_client st).fst = none ∧
    close_client (close_client st).fst = (none, []) := by
  cases st <;> exact ⟨rfl, rfl⟩

/-- C9: none of `find_one`, `find_many`, `update_one`, `delete_one`
catches exceptions — a driver error surfaces to the caller unmodified. -/
theorem claim_C9_rud_propagate {φ υ α δ ε : Type}
    (coll_find_one : φ → Except ε δ) (coll_find : List α → Except ε δ)
    (coll_update_one : φ → υ → Except ε δ)
    (coll_delete_one : φ → Except ε δ) :
    (∀ (f : φ) (e : ε), coll_find_one f = .error e →
      find_one coll_find_one f = .error e) ∧
    (∀ (f : Option (List α)) (e : ε), coll_find (orEmptyDict f) = .error e →
      find_many coll_find f = .error e) ∧
    (∀ (f : φ) (u : υ) (e : ε), coll_update_one f u = .error e →
      update_one coll_update_one f u = .error e) ∧
    (∀ (f : φ) (e : ε), coll_delete_one f = .error e →
      delete_one coll_delete_one f = .error e) :=
  ⟨fun _ _ h => h, fun _ _ h => h, fun _ _ _ h => h, fun _ _ h => h⟩

/-- A `find_one` collaborator that always raises. -/
def failFindOne : Nat → Except Nat Nat := fun _ => .error 9

/-- A `find` collaborator that always raises. -/
def failFind : List Nat → Except Nat Nat := fun _ => .error 9

/-- An `update_one` collaborator that always raises. -/
def failUpdateOne : Nat → Nat → Except Nat Nat := fun _ _ => .error 9

/-- A `delete_one` collaborator that always raises. -/
def failDeleteOne : Nat → Except Nat Nat := fun _ => .error 9

/-- Witness for C9 at concrete failing collaborators. -/
theorem claim_C9_witness :
    find_one failFindOne 0 = .error 9 ∧
    find_many failFind none = .error 9 ∧
    update_one failUpdateOne 0 1 = .error 9 ∧
    delete_one failDeleteOne 0 = .error 9 :=
  ⟨(claim_C9_rud_propagate failFindOne failFind failUpdateOne
      failDeleteOne).1 0 9 rfl,
   (claim_C9_rud_propagate failFindOne failFind failUpdateOne
      failDeleteOne).2.1 none 9 rfl,
   (claim_C9_rud_propagate failFindOne failFind failUpdateOne
      failDeleteOne).2.2.1 0 1 9 rfl,
   (claim_C9_rud_propagate failFindOne failFind failUpdateOne
      failDeleteOne).2.2.2 0 9 rfl⟩

/-- C10: an explicitly empty connection-string argument is falsy, so it is
treated as absent — the call behaves exactly as a call with no argument,
resolving the environment default, and succeeds when that default
validates and the ping passes. -/
theorem claim_C10_empty_string_absent (getenv : Option (List Char))
    (ping : Nat → Bool) (newClient : Nat) :
    (initialize_client getenv ping newClient none (some []) =
      initialize_client getenv ping newClient none none) ∧
    (∀ s : List Char, getenv = some s →
      validate_connection_string (some s) = .ok () →
      ping newClient = true →
      initialize_client getenv ping newClient none (some []) =
        (some newClient, .ok ())) := by
  refine ⟨rfl, fun s hg hv hp => ?_⟩
  subst hg
  simp [initialize_client, resolveConn, hv, hp]

/-- A liveness check that always succeeds. -/
def livePing : Nat → Bool := fun _ => true

/-- Witness for C10 at a concrete environment default. -/
theorem claim_C10_witness :
    initialize_client (some schemeMongo) livePing 4 none (some []) =
      (some 4, Except.ok ()) :=
  (claim_C10_empty_string_absent (some schemeMongo) livePing 4).2
    schemeMongo rfl rfl rfl

end MongoDemo
